import Mathlib

/-!
Shallow embedding of `src/pyvmw/vcenter.py` (class `vcsite`, a wrapper
around a remote virtualization management API).

The remote server is modelled as an oracle `World`: the inventory that
`RetrieveContent` would return (VMs with their devices, power state and
quick-stats; datastores with the file entries a `SearchDatastore_Task`
would return for the search issued by `find_iso`), plus an optional
`contentErr` meaning that the remote content retrieval raises with that
message (every method catches this with a broad `except` clause).

Python dictionaries are modelled as insertion-ordered association lists
(`Dict`); `pyDictInsert` follows Python assignment semantics: an existing
key keeps its position and gets the new value, a new key is appended.
-/

namespace PyVmw

/-- A Python value appearing in the result dictionaries of this module:
a string or a boolean. -/
inductive PyVal where
  | pstr (s : String)
  | pbool (b : Bool)
  deriving DecidableEq, Repr

/-- A Python dict with string keys, as an insertion-ordered association list. -/
abbrev Dict := List (String × PyVal)

/-- Python dict assignment `d[k] = v` on an insertion-ordered association
list with unique keys (every dict here is built from `[]` by this
operation): overwrite the key in place if present, otherwise append. -/
def pyInsert {α : Type} : List (String × α) → String → α → List (String × α)
  | [], k, v => [(k, v)]
  | kv :: rest, k, v =>
      if kv.1 = k then (k, v) :: rest else kv :: pyInsert rest k v

/-- Python dict assignment on a `Dict`. -/
def pyDictInsert (d : Dict) (k : String) (v : PyVal) : Dict := pyInsert d k v

/-- The error payload `{"Error": msg}`. -/
def errD (msg : String) : Dict := [("Error", PyVal.pstr msg)]

/-- Backing of a virtual CD-ROM device: client-device (remote ATAPI)
passthrough, or an ISO file referenced as `"[<datastore>] <path>"`. -/
inductive CdromBacking where
  | remoteAtapi
  | iso (fileName : String)
  deriving DecidableEq, Repr

/-- A hardware device in a VM's `config.hardware.device` list, restricted to
the device kinds the module inspects (`vim.vm.device.VirtualCdrom`,
`vim.vm.device.VirtualEthernetCard`); everything else is `other`. -/
inductive Device where
  | cdrom (backing : CdromBacking) (connected : Bool)
  | ethernet (label mac : String)
  | other
  deriving DecidableEq, Repr

/-- Whether a device is a `VirtualCdrom` (the `isinstance` check of the source). -/
def Device.isCdrom : Device → Bool
  | .cdrom _ _ => true
  | _ => false

/-- A virtual machine as the module observes it: name, power state
(`runtime.powerState`, rendered as a string), hardware device list,
the names of the datastores it references (`vm_obj.datastore`), and the
quick-stats counters read by `get_cpu_mem_used`. -/
structure VM where
  name : String
  powerState : String
  devices : List Device
  datastores : List String
  cpuUsage : Int
  memUsage : Int
  deriving DecidableEq, Repr

/-- A datastore as the module observes it: its name, and the file paths the
remote `SearchDatastore_Task` issued by `find_iso` returns for it (an oracle
for the opaque server-side search; the client then suffix-filters them). -/
structure Datastore where
  name : String
  searchFiles : List String
  deriving DecidableEq, Repr

/-- The inventory reachable from the content root. -/
structure Content where
  vms : List VM
  datastores : List Datastore
  deriving DecidableEq, Repr

/-- The remote side as one oracle: the inventory, and whether content
retrieval raises (`contentErr = some msg` means the remote call inside the
`try` block raises an exception rendered as `msg`). -/
structure World where
  content : Content
  contentErr : Option String
  deriving DecidableEq, Repr

/-- First VM whose name equals `vm` (the source's linear scan with `break`:
first match wins). -/
def findVM (vms : List VM) (vm : String) : Option VM :=
  vms.find? (fun o => o.name = vm)

/-- First datastore whose name equals `ds` (linear scan with `break`). -/
def findDatastore (dss : List Datastore) (ds : String) : Option Datastore :=
  dss.find? (fun d => d.name = ds)

/-- `path.endswith(suffix)` of Python. -/
def strEndsWith (s suffix : String) : Bool :=
  suffix.data.isSuffixOf s.data

/-- Result of `find_iso` and `find_iso_in_all_datastores`: a plain string
path on success, or the dict `{"Error": msg}`. -/
inductive IsoResult where
  | path (p : String)
  | errorPayload (msg : String)
  deriving DecidableEq, Repr

/-- Whether an `IsoResult` is the success (plain string) shape — the
source's `isinstance(result, str)` test. -/
def IsoResult.isPath : IsoResult → Bool
  | .path _ => true
  | .errorPayload _ => false

/-- Result of `datastore_list`: the ordered list of datastore names, or
`{"Error": msg}` when content retrieval fails. -/
inductive DsListResult where
  | names (l : List String)
  | errorPayload (msg : String)
  deriving DecidableEq, Repr

/-- `datastore_list()`: lists all datastore names in inventory order;
on failure returns `{"Error": msg}`. -/
def datastore_list (w : World) : DsListResult :=
  match w.contentErr with
  | some m => .errorPayload m
  | none => .names (w.content.datastores.map (fun d => d.name))

/-- The source's scan over the search result: first file entry whose path
ends with `iso_name`. -/
def firstSuffixMatch (iso_name : String) : List String → Option String
  | [] => none
  | f :: rest =>
      if strEndsWith f iso_name then some f else firstSuffixMatch iso_name rest

/-- `find_iso(datastore_name, iso_name)`: validates both arguments non-empty,
resolves the datastore by linear scan, runs the remote search, and returns
`"<datastore_name>/<path>"` for the first returned entry whose path ends with
`iso_name`, else a not-found error payload. -/
def find_iso (w : World) (datastore_name iso_name : String) : IsoResult :=
  if datastore_name = "" ∨ iso_name = "" then
    .errorPayload "Datastore name and ISO file name are required."
  else
    match w.contentErr with
    | some m => .errorPayload m
    | none =>
      match findDatastore w.content.datastores datastore_name with
      | none =>
          .errorPayload ("Datastore '" ++ datastore_name ++ "' not found.")
      | some ds =>
          match firstSuffixMatch iso_name ds.searchFiles with
          | some f => .path (datastore_name ++ "/" ++ f)
          | none =>
              .errorPayload ("ISO '" ++ iso_name ++ "' not found in datastore '"
                ++ datastore_name ++ "'.")

/-- The loop of `find_iso_in_all_datastores`: try each datastore in order,
return the first plain-string result, also counting how many datastores were
searched (`find_iso` invocations). -/
def findIsoLoop (w : World) (iso_name : String) : List String → IsoResult × Nat
  | [] =>
      (.errorPayload ("ISO '" ++ iso_name ++ "' not found in any datastore."), 0)
  | d :: rest =>
      match find_iso w d iso_name with
      | .path p => (.path p, 1)
      | .errorPayload _ =>
          let (r, n) := findIsoLoop w iso_name rest
          (r, n + 1)

/-- `find_iso_in_all_datastores(iso_name)`: validates the argument, obtains
the datastore list (propagating its error payload unchanged), then calls
`find_iso` on each datastore in listing order, short-circuiting on the first
success. The second component counts the `find_iso` calls made. -/
def find_iso_in_all_datastores (w : World) (iso_name : String) : IsoResult × Nat :=
  if iso_name = "" then
    (.errorPayload "ISO file name is required.", 0)
  else
    match datastore_list w with
    | .errorPayload m => (.errorPayload m, 0)
    | .names l => findIsoLoop w iso_name l

/-- Outcome of one handshake attempt inside `connect()`'s `try` block:
`connectRaises` — `SmartConnect` itself raises; `versionFetchRaises` —
`SmartConnect` succeeds (so `self.__conn__` is already assigned) but the
subsequent `content.about`/version retrieval raises; `success v` — the whole
block succeeds with server version `v`. -/
inductive HandshakeOutcome where
  | connectRaises
  | versionFetchRaises
  | success (ver : String)
  deriving DecidableEq, Repr

/-- The connection-related state of a `vcsite` instance: the handle
`self.__conn__`, the cached `self.version`, and an instrumentation counter
of handshake attempts (`SmartConnect` invocations). -/
structure Session where
  conn : Option Unit
  version : Option String
  handshakes : Nat
  deriving DecidableEq, Repr

/-- A freshly constructed instance: no connection, no cached version. -/
def initSession : Session := ⟨none, none, 0⟩

/-- `connect()`: no-op when `self.__conn__` is not `None`; otherwise attempts
the handshake. `SmartConnect`'s result is assigned to `self.__conn__` before
the version is fetched, so a failure of the version fetch leaves the handle
assigned; any exception is caught and logged, never re-raised (the function
is total). -/
def connect (hs : HandshakeOutcome) (s : Session) : Session :=
  match s.conn with
  | some _ => s
  | none =>
    match hs with
    | .connectRaises => { s with handshakes := s.handshakes + 1 }
    | .versionFetchRaises =>
        { s with conn := some (), handshakes := s.handshakes + 1 }
    | .success v =>
        { s with conn := some (), version := some v, handshakes := s.handshakes + 1 }

/-- Result of an inventory-mutating VM operation: the returned payload (a
Python dict), the number of remote task submissions performed
(`ReconfigVM_Task` / `PowerOffVM_Task` / `PowerOnVM_Task`), and the VM list
after any reconfiguration the task applied. -/
structure MutOut where
  result : Dict
  tasks : Nat
  vms : List VM
  deriving DecidableEq, Repr

/-- The message `"VM '<vm>' not found."` used by the operations that report
a missing VM under the `"Error"` key. -/
def vmNotFoundErrMsg (vm : String) : String := "VM '" ++ vm ++ "' not found."

/-- Update the first VM named `name` in the list (the object the linear scan
with `break` resolved). -/
def updateVM (vms : List VM) (name : String) (f : VM → VM) : List VM :=
  match vms with
  | [] => []
  | v :: rest =>
      if v.name = name then f v :: rest else v :: updateVM rest name f

/-- Result of `list_vm_datastores`: a list of names on success, a dict on
error. -/
inductive ListOrDict where
  | strs (l : List String)
  | dict (d : Dict)
  deriving DecidableEq, Repr

/-- `list_vm_datastores(vm)`: validates `vm` non-empty, resolves the VM by
first-match scan, and returns the names of the datastores it references;
a missing VM yields `{"Error": "VM '<vm>' not found."}`. -/
def list_vm_datastores (w : World) (vm : String) : ListOrDict :=
  if vm = "" then .dict (errD "VM name is required.")
  else
    match w.contentErr with
    | some m => .dict (errD m)
    | none =>
      match findVM w.content.vms vm with
      | none => .dict (errD (vmNotFoundErrMsg vm))
      | some vmObj => .strs vmObj.datastores

/-- `vm_add_cdrom_drive(vm)`: resolves the VM (missing → `{vm: "Not Found"}`),
then submits one `ReconfigVM_Task` adding a CD-ROM with client-device
(remote-ATAPI) backing, initially disconnected. -/
def vm_add_cdrom_drive (w : World) (vm : String) : MutOut :=
  if vm = "" then ⟨errD "VM name is required.", 0, w.content.vms⟩
  else
    match w.contentErr with
    | some m => ⟨errD m, 0, w.content.vms⟩
    | none =>
      match findVM w.content.vms vm with
      | none => ⟨[(vm, PyVal.pstr "Not Found")], 0, w.content.vms⟩
      | some _ =>
          ⟨[(vm, PyVal.pstr "CD-ROM drive added successfully")], 1,
            updateVM w.content.vms vm
              (fun v => { v with devices := v.devices ++ [.cdrom .remoteAtapi false] })⟩

/-- `iso.split('/', 1)` after the `'/' in iso` check: `none` when the string
has no slash, else the parts before and after the first slash. -/
def splitAtFirstSlash : List Char → Option (List Char × List Char)
  | [] => none
  | c :: rest =>
      if c = '/' then some ([], rest)
      else
        match splitAtFirstSlash rest with
        | none => none
        | some (a, b) => some (c :: a, b)

/-- `iso.split('/', 1)` on strings (with the `'/' in iso` membership check). -/
def splitIso (iso : String) : Option (String × String) :=
  match splitAtFirstSlash iso.data with
  | none => none
  | some (a, b) => some (⟨a⟩, ⟨b⟩)

/-- The edit `vm_cdrom_load_iso` applies to the first CD-ROM device: ISO
backing `"[<datastore>] <path>"`, connected with start-connected true. -/
def loadIsoDevices (ds filePath : String) : List Device → List Device
  | [] => []
  | .cdrom _ _ :: rest =>
      .cdrom (.iso ("[" ++ ds ++ "] " ++ filePath)) true :: rest
  | d :: rest => d :: loadIsoDevices ds filePath rest

/-- `vm_cdrom_load_iso(vm, iso)`: validates both arguments, resolves the VM
(missing → `{vm: "Not Found"}`), checks the `'/'` locator format, resolves
the datastore named before the slash, requires an existing CD-ROM device
(none → `{vm: "No CD-ROM drive found"}`, no task submitted), then submits one
edit-device `ReconfigVM_Task` rewriting the first CD-ROM's backing. -/
def vm_cdrom_load_iso (w : World) (vm iso : String) : MutOut :=
  if vm = "" ∨ iso = "" then
    ⟨errD "VM name and ISO file path are required.", 0, w.content.vms⟩
  else
    match w.contentErr with
    | some m => ⟨errD m, 0, w.content.vms⟩
    | none =>
      match findVM w.content.vms vm with
      | none => ⟨[(vm, PyVal.pstr "Not Found")], 0, w.content.vms⟩
      | some vmObj =>
        match splitIso iso with
        | none => ⟨errD "Invalid ISO path format", 0, w.content.vms⟩
        | some (datastore_name, file_path) =>
          match findDatastore w.content.datastores datastore_name with
          | none =>
              ⟨errD ("Datastore '" ++ datastore_name ++ "' not found in vCenter."),
                0, w.content.vms⟩
          | some _ =>
              if vmObj.devices.any Device.isCdrom then
                ⟨[(vm, PyVal.pstr ("ISO '" ++ iso ++ "' loaded successfully"))], 1,
                  updateVM w.content.vms vm
                    (fun v => { v with devices := loadIsoDevices datastore_name file_path v.devices })⟩
              else
                ⟨[(vm, PyVal.pstr "No CD-ROM drive found")], 0, w.content.vms⟩

/-- `vm_has_cdrom_drive(vm)`: resolves the VM (missing → `{vm: "Not Found"}`)
and reports whether its hardware list holds a CD-ROM device. -/
def vm_has_cdrom_drive (w : World) (vm : String) : Dict :=
  if vm = "" then errD "VM name is required."
  else
    match w.contentErr with
    | some m => errD m
    | none =>
      match findVM w.content.vms vm with
      | none => [(vm, PyVal.pstr "Not Found")]
      | some vmObj =>
          if vmObj.devices.any Device.isCdrom then [(vm, PyVal.pbool true)]
          else [(vm, PyVal.pbool false)]

/-- `vm_get_mac_address(vm)`: resolves the VM (missing →
`{"Error": "VM '<vm>' not found."}`), then builds the adapter-label → MAC
mapping over the ethernet devices; no adapters is an error payload. -/
def vm_get_mac_address (w : World) (vm : String) : Dict :=
  if vm = "" then errD "VM name is required."
  else
    match w.contentErr with
    | some m => errD m
    | none =>
      match findVM w.content.vms vm with
      | none => errD (vmNotFoundErrMsg vm)
      | some vmObj =>
          let macs := vmObj.devices.foldl
            (fun d dev =>
              match dev with
              | .ethernet label mac => pyDictInsert d label (PyVal.pstr mac)
              | _ => d) []
          if macs = [] then errD "No network adapters found on the VM."
          else macs

/-- The full name → power-state mapping `get_vm_power_state` builds over the
inventory (Python dict built by assignment in inventory order). -/
def powerMapping (vms : List VM) : Dict :=
  vms.foldl (fun d v => pyDictInsert d v.name (PyVal.pstr v.powerState)) []

/-- `get_vm_power_state(vm=None)`: builds the full name → power-state mapping;
with a truthy `vm`, returns the singleton `{vm: state}` or `{vm: "Not Found"}`;
with `vm` absent (or falsy, e.g. the empty string) returns the full mapping;
on failure returns the empty dict. -/
def get_vm_power_state (w : World) (vm : Option String) : Dict :=
  match w.contentErr with
  | some _ => []
  | none =>
    let mapping := powerMapping w.content.vms
    match vm with
    | some v =>
        if v = "" then mapping
        else
          match mapping.find? (fun kv => kv.1 = v) with
          | some kv => [(v, kv.2)]
          | none => [(v, PyVal.pstr "Not Found")]
    | none => mapping

/-- `vm_poweroff(vm)`: resolves the VM (missing → `{vm: "Not Found"}`); a VM
already `"poweredOff"` short-circuits with `{vm: "poweredOff"}` and no task;
otherwise submits one `PowerOffVM_Task` (modelled as a successful transition
to `"poweredOff"`) and returns `get_vm_power_state(vm)` on the new state. -/
def vm_poweroff (w : World) (vm : String) : MutOut :=
  if vm = "" then ⟨errD "VM name is required.", 0, w.content.vms⟩
  else
    match w.contentErr with
    | some m => ⟨errD m, 0, w.content.vms⟩
    | none =>
      match findVM w.content.vms vm with
      | none => ⟨[(vm, PyVal.pstr "Not Found")], 0, w.content.vms⟩
      | some vmObj =>
          if vmObj.powerState = "poweredOff" then
            ⟨[(vm, PyVal.pstr "poweredOff")], 0, w.content.vms⟩
          else
            let vms1 := updateVM w.content.vms vm
              (fun v => { v with powerState := "poweredOff" })
            ⟨get_vm_power_state ⟨⟨vms1, w.content.datastores⟩, none⟩ (some vm), 1, vms1⟩

/-- `vm_poweron(vm)`: as `vm_poweroff` with target state `"poweredOn"` and
`PowerOnVM_Task`. -/
def vm_poweron (w : World) (vm : String) : MutOut :=
  if vm = "" then ⟨errD "VM name is required.", 0, w.content.vms⟩
  else
    match w.contentErr with
    | some m => ⟨errD m, 0, w.content.vms⟩
    | none =>
      match findVM w.content.vms vm with
      | none => ⟨[(vm, PyVal.pstr "Not Found")], 0, w.content.vms⟩
      | some vmObj =>
          if vmObj.powerState = "poweredOn" then
            ⟨[(vm, PyVal.pstr "poweredOn")], 0, w.content.vms⟩
          else
            let vms1 := updateVM w.content.vms vm
              (fun v => { v with powerState := "poweredOn" })
            ⟨get_vm_power_state ⟨⟨vms1, w.content.datastores⟩, none⟩ (some vm), 1, vms1⟩

/-- `vm_set_bios_boot_cdrom(vm)`: resolves the VM (missing →
`{"Error": "VM '<vm>' not found."}`), requires an existing CD-ROM device
(none → `{vm: "No CD-ROM drive found"}`), then submits one `ReconfigVM_Task`
carrying only boot options (which are outside the modelled VM state, so the
device list is unchanged). -/
def vm_set_bios_boot_cdrom (w : World) (vm : String) : MutOut :=
  if vm = "" then ⟨errD "VM name is required.", 0, w.content.vms⟩
  else
    match w.contentErr with
    | some m => ⟨errD m, 0, w.content.vms⟩
    | none =>
      match findVM w.content.vms vm with
      | none => ⟨errD (vmNotFoundErrMsg vm), 0, w.content.vms⟩
      | some vmObj =>
          if vmObj.devices.any Device.isCdrom then
            ⟨[(vm, PyVal.pstr "BIOS boot mode set with CD-ROM as the first boot device")],
              1, w.content.vms⟩
          else
            ⟨[(vm, PyVal.pstr "No CD-ROM drive found")], 0, w.content.vms⟩

/-- Result of `get_cpu_mem_used`: the Python `None` return for a `None`
argument, the `[cpu, mem]` stats list, the `ValueError("No VRA Found")`
raise, or the `NameError` reached when content retrieval failed (the bare
`except` only logs, and the following use of `content` is then unbound). -/
inductive CpuMemResult where
  | noneResult
  | stats (cpu mem : Int)
  | valueErrorRaised
  | nameErrorRaised
  deriving DecidableEq, Repr

/-- `get_cpu_mem_used(vra=None)`: returns `None` only when `vra == None`
(an empty string does not short-circuit); otherwise connects if needed and
scans the inventory. The quirky loop (assign on match, then test-and-return
in the same iteration) returns the stats of the first VM whose name matches,
and raises `ValueError` when none does. The returned session records whether
a handshake was attempted. -/
def get_cpu_mem_used (s : Session) (hs : HandshakeOutcome) (w : World)
    (vra : Option String) : CpuMemResult × Session :=
  match vra with
  | none => (.noneResult, s)
  | some v =>
    let s1 := if s.conn = none then connect hs s else s
    if s1.conn = none ∨ w.contentErr.isSome then (.nameErrorRaised, s1)
    else
      match findVM w.content.vms v with
      | some vmObj => (.stats vmObj.cpuUsage vmObj.memUsage, s1)
      | none => (.valueErrorRaised, s1)

/-- A Python attribute value on a `vcsite` object, as far as callability is
concerned: `None`, a string, an int, a bool, the logger object, or a bound
method (the only callable kind here). -/
inductive PyAttrVal where
  | vNone
  | vStr (s : String)
  | vInt (n : Int)
  | vBool (b : Bool)
  | vLogger
  | boundMethod (m : String)
  deriving DecidableEq, Repr

/-- Whether a Python value is callable. -/
def isCallable : PyAttrVal → Bool
  | .boundMethod _ => true
  | _ => false

/-- A `vcsite` instance as seen by attribute lookup: its instance
`__dict__`. -/
structure VcsiteObj where
  instanceAttrs : List (String × PyAttrVal)
  deriving DecidableEq, Repr

/-- The class `__dict__` of `vcsite`: its plain functions, which bind as
methods on attribute access through an instance. -/
def vcsiteClassAttrs : List (String × PyAttrVal) :=
  [("connect", .boundMethod "connect"),
   ("version", .boundMethod "version"),
   ("datastore_list", .boundMethod "datastore_list"),
   ("find_iso", .boundMethod "find_iso"),
   ("find_iso_in_all_datastores", .boundMethod "find_iso_in_all_datastores"),
   ("get_cpu_mem_used", .boundMethod "get_cpu_mem_used"),
   ("get_vm_list", .boundMethod "get_vm_list"),
   ("list_vm_datastores", .boundMethod "list_vm_datastores"),
   ("vm_add_cdrom_drive", .boundMethod "vm_add_cdrom_drive"),
   ("vm_cdrom_load_iso", .boundMethod "vm_cdrom_load_iso"),
   ("vm_has_cdrom_drive", .boundMethod "vm_has_cdrom_drive"),
   ("vm_get_mac_address", .boundMethod "vm_get_mac_address"),
   ("vm_poweroff", .boundMethod "vm_poweroff"),
   ("vm_poweron", .boundMethod "vm_poweron"),
   ("vm_set_bios_boot_cdrom", .boundMethod "vm_set_bios_boot_cdrom"),
   ("get_vm_power_state", .boundMethod "get_vm_power_state"),
   ("get_write_iops", .boundMethod "get_write_iops"),
   ("get_average_write_latency", .boundMethod "get_average_write_latency"),
   ("disconnect", .boundMethod "disconnect")]

/-- Lookup in the instance `__dict__` only. -/
def getattrInst (o : VcsiteObj) (name : String) : Option PyAttrVal :=
  (o.instanceAttrs.find? (fun kv => kv.1 = name)).map (fun kv => kv.2)

/-- Python attribute lookup on a `vcsite` instance: the instance `__dict__`
shadows the class functions (plain functions are non-data descriptors, so an
instance attribute of the same name wins). -/
def getattr (o : VcsiteObj) (name : String) : Option PyAttrVal :=
  match getattrInst o name with
  | some v => some v
  | none => (vcsiteClassAttrs.find? (fun kv => kv.1 = name)).map (fun kv => kv.2)

/-- Outcome of `obj.name()`: dispatch to the method when the looked-up value
is callable, `TypeError` when it is not. -/
inductive CallOutcome where
  | typeError
  | methodCall (m : String)
  deriving DecidableEq, Repr

/-- `obj.name()`: evaluate `obj.name` and call it (`none` when the attribute
does not exist, i.e. `AttributeError`). -/
def callAttr (o : VcsiteObj) (name : String) : Option CallOutcome :=
  (getattr o name).map
    (fun v => if isCallable v then .methodCall name else .typeError)

/-- `vcsite.__init__`: the instance attributes it assigns, in order
(`self.version = None` at line 18 among them). -/
def vcsiteInit (host : String) (port : Int) (username password : String)
    (verify_ssl : Bool) (loglevel : String) : VcsiteObj :=
  ⟨[("host", .vStr host),
    ("port", .vInt port),
    ("username", .vStr username),
    ("password", .vStr password),
    ("verify_ssl", .vBool verify_ssl),
    ("version", .vNone),
    ("__conn__", .vNone),
    ("LOGLEVEL", .vStr loglevel.toUpper),
    ("log", .vLogger)]⟩

/-- Every assignment the class ever makes to `self.version` after `__init__`:
`connect` stores the server version string on success, `disconnect` resets it
to `None`. `none` models `self.version = None`, `some s` models
`self.version = s`. -/
def applyVersionUpdate (o : VcsiteObj) (u : Option String) : VcsiteObj :=
  ⟨pyInsert o.instanceAttrs "version"
    (match u with | none => PyAttrVal.vNone | some s => PyAttrVal.vStr s)⟩

/-! ## Helper lemmas -/

/-- An `IsoResult` with `isPath` true is a `path`. -/
theorem IsoResult.isPath_iff (r : IsoResult) : r.isPath = true ↔ ∃ p, r = .path p := by
  cases r <;> simp [IsoResult.isPath]

/-- `firstSuffixMatch` is `none` when no entry matches. -/
theorem firstSuffixMatch_eq_none (iso : String) (l : List String)
    (h : ∀ f ∈ l, strEndsWith f iso = false) : firstSuffixMatch iso l = none := by
  induction l with
  | nil => rfl
  | cons f rest ih =>
      have hf := h f (List.mem_cons_self f rest)
      simp only [firstSuffixMatch, hf, if_false, Bool.false_eq_true]
      exact ih (fun g hg => h g (List.mem_cons_of_mem f hg))

/-- `firstSuffixMatch` returns the entry at the first matching index. -/
theorem firstSuffixMatch_at (iso : String) :
    ∀ (l : List String) (i : Nat) (hi : i < l.length),
      strEndsWith (l.get ⟨i, hi⟩) iso = true →
      (∀ j (hj : j < i), strEndsWith (l.get ⟨j, Nat.lt_trans hj hi⟩) iso = false) →
      firstSuffixMatch iso l = some (l.get ⟨i, hi⟩) := by
  intro l
  induction l with
  | nil => intro i hi; exact absurd hi (Nat.not_lt_zero i)
  | cons f rest ih =>
      intro i hi hmatch hfirst
      cases i with
      | zero => simp only [List.get] at hmatch ⊢; simp [firstSuffixMatch, hmatch]
      | succ k =>
          have hf : strEndsWith f iso = false := hfirst 0 (Nat.succ_pos k)
          simp only [List.get] at hmatch ⊢
          simp only [firstSuffixMatch, hf, Bool.false_eq_true, if_false]
          exact ih k (Nat.lt_of_succ_lt_succ hi) hmatch
            (fun j hj => hfirst (j + 1) (Nat.succ_lt_succ hj))

/-- The loop of `find_iso_in_all_datastores` when every datastore fails:
the not-found payload, after trying every datastore. -/
theorem findIsoLoop_all_fail (w : World) (iso : String) (l : List String)
    (h : ∀ d ∈ l, (find_iso w d iso).isPath = false) :
    findIsoLoop w iso l =
      (.errorPayload ("ISO '" ++ iso ++ "' not found in any datastore."), l.length) := by
  induction l with
  | nil => rfl
  | cons d rest ih =>
      have hd := h d (List.mem_cons_self d rest)
      have ihr := ih (fun g hg => h g (List.mem_cons_of_mem d hg))
      simp only [findIsoLoop]
      cases hfi : find_iso w d iso with
      | path p => rw [hfi] at hd; simp [IsoResult.isPath] at hd
      | errorPayload m => simp [ihr, List.length_cons]

/-- The loop of `find_iso_in_all_datastores` returns the result of the first
datastore on which `find_iso` succeeds, having tried exactly the datastores
up to and including it. -/
theorem findIsoLoop_first (w : World) (iso : String) :
    ∀ (l : List String) (i : Nat) (hi : i < l.length),
      (find_iso w (l.get ⟨i, hi⟩) iso).isPath = true →
      (∀ j (hj : j < i), (find_iso w (l.get ⟨j, Nat.lt_trans hj hi⟩) iso).isPath = false) →
      findIsoLoop w iso l = (find_iso w (l.get ⟨i, hi⟩) iso, i + 1) := by
  intro l
  induction l with
  | nil => intro i hi; exact absurd hi (Nat.not_lt_zero i)
  | cons d rest ih =>
      intro i hi hsucc hfail
      cases i with
      | zero =>
          simp only [List.get] at hsucc ⊢
          obtain ⟨p, hp⟩ := (IsoResult.isPath_iff _).mp hsucc
          simp [findIsoLoop, hp]
      | succ k =>
          have hd : (find_iso w d iso).isPath = false := hfail 0 (Nat.succ_pos k)
          simp only [List.get] at hsucc ⊢
          have ihr := ih k (Nat.lt_of_succ_lt_succ hi) hsucc
            (fun j hj => hfail (j + 1) (Nat.succ_lt_succ hj))
          simp only [findIsoLoop]
          cases hfi : find_iso w d iso with
          | path p => rw [hfi] at hd; simp [IsoResult.isPath] at hd
          | errorPayload m => simp [ihr]

/-! ## Concrete fixtures used by witnesses and counterexamples -/

/-- A VM that holds a CD-ROM drive. -/
def vmA : VM := ⟨"vm-a", "poweredOn", [Device.cdrom .remoteAtapi false], ["DS1"], 120, 512⟩

/-- A powered-off VM with no devices. -/
def vmB : VM := ⟨"vm-b", "poweredOff", [], [], 0, 0⟩

/-- A datastore whose remote search returns a file whose name merely ends in
the searched ISO name. -/
def dsOld : Datastore := ⟨"DS1", ["isos/old_ubuntu.iso"]⟩

/-- A later datastore that also holds a match. -/
def dsNew : Datastore := ⟨"DS2", ["isos/ubuntu.iso"]⟩

/-- An empty inventory with a working connection. -/
def wEmpty : World := ⟨⟨[], []⟩, none⟩

/-- A small working inventory: two VMs, two datastores. -/
def wDemo : World := ⟨⟨[vmA, vmB], [dsOld, dsNew]⟩, none⟩

/-! ## Claims -/

/-- C2: `find_iso` validates its arguments, resolves the datastore, and
returns `"<datastore_name>/<relative_path>"` for the first returned file
entry whose path has `iso_name` as a suffix; it returns an `{"Error": ...}`
payload when either argument is empty, when the named datastore is absent,
or when no returned entry's path has `iso_name` as a suffix. -/
theorem find_iso_spec (w : World) (ds iso : String) (hconn : w.contentErr = none) :
    ((ds = "" ∨ iso = "") →
      find_iso w ds iso = .errorPayload "Datastore name and ISO file name are required.") ∧
    (ds ≠ "" → iso ≠ "" → findDatastore w.content.datastores ds = none →
      find_iso w ds iso = .errorPayload ("Datastore '" ++ ds ++ "' not found.")) ∧
    (∀ d, ds ≠ "" → iso ≠ "" → findDatastore w.content.datastores ds = some d →
      ((∀ i (hi : i < d.searchFiles.length),
          strEndsWith (d.searchFiles.get ⟨i, hi⟩) iso = true →
          (∀ j (hj : j < i),
            strEndsWith (d.searchFiles.get ⟨j, Nat.lt_trans hj hi⟩) iso = false) →
          find_iso w ds iso = .path (ds ++ "/" ++ d.searchFiles.get ⟨i, hi⟩)) ∧
        ((∀ f ∈ d.searchFiles, strEndsWith f iso = false) →
          find_iso w ds iso =
            .errorPayload ("ISO '" ++ iso ++ "' not found in datastore '" ++ ds ++ "'.")))) := by
  obtain ⟨c, ce⟩ := w
  simp only at hconn
  subst hconn
  refine ⟨fun h => ?_, fun hds hiso hnone => ?_, fun d hds hiso hsome => ⟨?_, ?_⟩⟩
  · simp [find_iso, h]
  · simp [find_iso, hds, hiso, hnone]
  · intro i hi hmatch hfirst
    have hm := firstSuffixMatch_at iso d.searchFiles i hi hmatch hfirst
    simp [find_iso, hds, hiso, hsome, hm]
  · intro hall
    have hm := firstSuffixMatch_eq_none iso d.searchFiles hall
    simp [find_iso, hds, hiso, hsome, hm]

/-- C2 witness: in a datastore whose search returns `"isos/old_ubuntu.iso"`,
searching for `"ubuntu.iso"` succeeds by suffix match with the composite
path, and searching a missing datastore errors. -/
theorem find_iso_spec_witness :
    find_iso wDemo "DS1" "ubuntu.iso" = .path "DS1/isos/old_ubuntu.iso" ∧
    find_iso wDemo "DS9" "ubuntu.iso" = .errorPayload "Datastore 'DS9' not found." := by
  constructor
  · exact ((find_iso_spec wDemo "DS1" "ubuntu.iso" rfl).2.2 dsOld (by decide) (by decide)
      (by decide)).1 0 (by decide) (by decide)
      (fun j hj => absurd hj (Nat.not_lt_zero j))
  · exact (find_iso_spec wDemo "DS9" "ubuntu.iso" rfl).2.1 (by decide) (by decide) (by decide)

/-- C3: `find_iso_in_all_datastores` propagates a failed `datastore_list`
payload unchanged without searching any datastore; otherwise it calls
`find_iso` on the datastores in exact listing order and returns the first
success (having searched exactly the datastores up to it), and returns the
not-found payload only after every datastore has been tried. -/
theorem find_iso_in_all_datastores_spec (w : World) (iso : String) (hiso : iso ≠ "") :
    (∀ m, w.contentErr = some m →
      datastore_list w = .errorPayload m ∧
      find_iso_in_all_datastores w iso = (.errorPayload m, 0)) ∧
    (w.contentErr = none →
      datastore_list w = .names (w.content.datastores.map (fun d => d.name)) ∧
      (∀ i (hi : i < (w.content.datastores.map (fun d => d.name)).length),
        (find_iso w ((w.content.datastores.map (fun d => d.name)).get ⟨i, hi⟩) iso).isPath = true →
        (∀ j (hj : j < i),
          (find_iso w ((w.content.datastores.map (fun d => d.name)).get
            ⟨j, Nat.lt_trans hj hi⟩) iso).isPath = false) →
        find_iso_in_all_datastores w iso =
          (find_iso w ((w.content.datastores.map (fun d => d.name)).get ⟨i, hi⟩) iso, i + 1)) ∧
      ((∀ d ∈ w.content.datastores.map (fun d => d.name), (find_iso w d iso).isPath = false) →
        find_iso_in_all_datastores w iso =
          (.errorPayload ("ISO '" ++ iso ++ "' not found in any datastore."),
            (w.content.datastores.map (fun d => d.name)).length))) := by
  obtain ⟨c, ce⟩ := w
  constructor
  · intro m hm
    simp only at hm
    subst hm
    exact ⟨rfl, by simp [find_iso_in_all_datastores, hiso, datastore_list]⟩
  · intro hnone
    simp only at hnone
    subst hnone
    refine ⟨rfl, fun i hi hsucc hfail => ?_, fun hall => ?_⟩
    · have hl := findIsoLoop_first ⟨c, none⟩ iso (c.datastores.map (fun d => d.name))
        i hi hsucc hfail
      simp [find_iso_in_all_datastores, hiso, datastore_list, hl]
    · have hl := findIsoLoop_all_fail ⟨c, none⟩ iso (c.datastores.map (fun d => d.name)) hall
      simp [find_iso_in_all_datastores, hiso, datastore_list, hl]

/-- C3 witness: with two datastores that both match, the first in listing
order wins after a single search; a failed `datastore_list` payload passes
through untouched. -/
theorem find_iso_in_all_datastores_spec_witness :
    find_iso_in_all_datastores wDemo "ubuntu.iso" = (.path "DS1/isos/old_ubuntu.iso", 1) ∧
    find_iso_in_all_datastores ⟨⟨[], []⟩, some "boom"⟩ "ubuntu.iso" =
      (.errorPayload "boom", 0) := by
  constructor
  · have h := ((find_iso_in_all_datastores_spec wDemo "ubuntu.iso" (by decide)).2 rfl).2.1
      0 (by decide) (by decide) (fun j hj => absurd hj (Nat.not_lt_zero j))
    simpa using h
  · exact ((find_iso_in_all_datastores_spec ⟨⟨[], []⟩, some "boom"⟩ "ubuntu.iso"
      (by decide)).1 "boom" rfl).2

/-- C1 counterexample: `vm_get_mac_address` on a VM name that matches no VM
does not return `{<vm_name>: "Not Found"}` — it returns
`{"Error": "VM 'ghost' not found."}` — so the claimed payload convention
does not hold across all listed VM-targeted operations. -/
theorem vm_not_found_payload_counterexample :
    vm_get_mac_address wEmpty "ghost" = errD (vmNotFoundErrMsg "ghost") ∧
    vm_get_mac_address wEmpty "ghost" ≠ [("ghost", PyVal.pstr "Not Found")] ∧
    list_vm_datastores wEmpty "ghost" = .dict (errD (vmNotFoundErrMsg "ghost")) ∧
    (vm_set_bios_boot_cdrom wEmpty "ghost").result = errD (vmNotFoundErrMsg "ghost") := by
  decide

/-- C1 amended: a non-empty VM name matching no VM in the inventory yields
`{<vm_name>: "Not Found"}` from `vm_add_cdrom_drive`, `vm_cdrom_load_iso`,
`vm_has_cdrom_drive`, `vm_poweroff` and `vm_poweron`, whereas
`list_vm_datastores`, `vm_get_mac_address` and `vm_set_bios_boot_cdrom`
instead return `{"Error": "VM '<vm_name>' not found."}`. -/
theorem vm_not_found_payloads (w : World) (vm iso : String) (hvm : vm ≠ "")
    (hiso : iso ≠ "") (hconn : w.contentErr = none)
    (habs : findVM w.content.vms vm = none) :
    (vm_add_cdrom_drive w vm).result = [(vm, PyVal.pstr "Not Found")] ∧
    (vm_cdrom_load_iso w vm iso).result = [(vm, PyVal.pstr "Not Found")] ∧
    vm_has_cdrom_drive w vm = [(vm, PyVal.pstr "Not Found")] ∧
    (vm_poweroff w vm).result = [(vm, PyVal.pstr "Not Found")] ∧
    (vm_poweron w vm).result = [(vm, PyVal.pstr "Not Found")] ∧
    list_vm_datastores w vm = .dict (errD (vmNotFoundErrMsg vm)) ∧
    vm_get_mac_address w vm = errD (vmNotFoundErrMsg vm) ∧
    (vm_set_bios_boot_cdrom w vm).result = errD (vmNotFoundErrMsg vm) := by
  obtain ⟨c, ce⟩ := w
  simp only at hconn habs
  subst hconn
  refine ⟨?_, ?_, ?_, ?_, ?_, ?_, ?_, ?_⟩ <;>
    simp [vm_add_cdrom_drive, vm_cdrom_load_iso, vm_has_cdrom_drive, vm_poweroff,
      vm_poweron, list_vm_datastores, vm_get_mac_address, vm_set_bios_boot_cdrom,
      hvm, hiso, habs]

/-- C1 amended witness: the eight payloads at a concrete missing VM name. -/
theorem vm_not_found_payloads_witness :
    (vm_poweroff wDemo "ghost").result = [("ghost", PyVal.pstr "Not Found")] ∧
    vm_get_mac_address wDemo "ghost" = errD (vmNotFoundErrMsg "ghost") := by
  have h := vm_not_found_payloads wDemo "ghost" "DS1/isos/ubuntu.iso"
    (by decide) (by decide) rfl (by decide)
  exact ⟨h.2.2.2.1, h.2.2.2.2.2.2.1⟩

/-- C6: a VM already in the target power state makes `vm_poweroff` return
`{vm: "poweredOff"}` and `vm_poweron` return `{vm: "poweredOn"}` with zero
power-transition tasks submitted and the inventory untouched. -/
theorem power_ops_short_circuit (w : World) (vm : String) (vmObj : VM)
    (hconn : w.contentErr = none) (hvm : vm ≠ "")
    (hfind : findVM w.content.vms vm = some vmObj) :
    (vmObj.powerState = "poweredOff" →
      vm_poweroff w vm = ⟨[(vm, PyVal.pstr "poweredOff")], 0, w.content.vms⟩) ∧
    (vmObj.powerState = "poweredOn" →
      vm_poweron w vm = ⟨[(vm, PyVal.pstr "poweredOn")], 0, w.content.vms⟩) := by
  obtain ⟨c, ce⟩ := w
  simp only at hconn hfind
  subst hconn
  constructor
  · intro hoff
    simp [vm_poweroff, hvm, hfind, hoff]
  · intro hon
    simp [vm_poweron, hvm, hfind, hon]

/-- C6 witness: the two short-circuits on the demo inventory (`vm-a` is
powered on, `vm-b` powered off). -/
theorem power_ops_short_circuit_witness :
    vm_poweroff wDemo "vm-b" = ⟨[("vm-b", PyVal.pstr "poweredOff")], 0, [vmA, vmB]⟩ ∧
    vm_poweron wDemo "vm-a" = ⟨[("vm-a", PyVal.pstr "poweredOn")], 0, [vmA, vmB]⟩ := by
  constructor
  · exact (power_ops_short_circuit wDemo "vm-b" vmB rfl (by decide) (by decide)).1 rfl
  · exact (power_ops_short_circuit wDemo "vm-a" vmA rfl (by decide) (by decide)).2 rfl

/-- C7: `vm_cdrom_load_iso` on an existing VM with no CD-ROM device, given a
well-formed `"<datastore>/<path>"` locator naming an existing datastore,
returns `{vm: "No CD-ROM drive found"}`, submits no reconfiguration task, and
leaves the inventory (in particular the VM's device list) unchanged. -/
theorem vm_cdrom_load_iso_no_drive (w : World) (vm iso dsName filePath : String)
    (vmObj : VM) (hconn : w.contentErr = none) (hvm : vm ≠ "") (hiso : iso ≠ "")
    (hsplit : splitIso iso = some (dsName, filePath))
    (hfind : findVM w.content.vms vm = some vmObj)
    (hds : (findDatastore w.content.datastores dsName).isSome = true)
    (hnocd : vmObj.devices.any Device.isCdrom = false) :
    vm_cdrom_load_iso w vm iso = ⟨[(vm, PyVal.pstr "No CD-ROM drive found")], 0, w.content.vms⟩ := by
  obtain ⟨c, ce⟩ := w
  simp only at hconn hfind hds
  subst hconn
  obtain ⟨d, hd⟩ := Option.isSome_iff_exists.mp hds
  simp [vm_cdrom_load_iso, hvm, hiso, hfind, hsplit, hd, hnocd]

/-- C7 witness: loading an ISO into `vm-b` (which has no CD-ROM) with a
well-formed locator into the existing datastore `DS1`. -/
theorem vm_cdrom_load_iso_no_drive_witness :
    vm_cdrom_load_iso wDemo "vm-b" "DS1/isos/ubuntu.iso" =
      ⟨[("vm-b", PyVal.pstr "No CD-ROM drive found")], 0, [vmA, vmB]⟩ := by
  exact vm_cdrom_load_iso_no_drive wDemo "vm-b" "DS1/isos/ubuntu.iso" "DS1"
    "isos/ubuntu.iso" vmB rfl (by decide) (by decide) (by decide) (by decide)
    (by decide) (by decide)

/-- C4 counterexample: from the disconnected state, when the first handshake
attempt fails (`SmartConnect` raises) the handle stays unset and the second
`connect()` call performs the handshake again — two handshakes, not one. -/
theorem connect_twice_counterexample :
    initSession.conn = none ∧
    (connect .connectRaises (connect .connectRaises initSession)).handshakes = 2 ∧
    ¬ (connect .connectRaises (connect .connectRaises initSession)).handshakes = 1 := by
  decide

/-- C4 amended: when the Session already holds a live connection handle,
`connect()` performs no handshake and leaves the handle and cached version
unchanged (the state is untouched); hence calling `connect()` twice from the
disconnected state performs the handshake exactly once provided the first
handshake succeeds (on failure the handle stays unset and the second call
retries the handshake). -/
theorem connect_idempotent (s : Session) (hs : HandshakeOutcome) :
    (s.conn.isSome = true → connect hs s = s) ∧
    (∀ v, s.conn = none →
      connect hs (connect (.success v) s) = connect (.success v) s ∧
      (connect hs (connect (.success v) s)).handshakes = s.handshakes + 1) := by
  constructor
  · intro hsome
    obtain ⟨u, hu⟩ := Option.isSome_iff_exists.mp hsome
    simp [connect, hu]
  · intro v hnone
    have h1 : connect (.success v) s =
        { s with conn := some (), version := some v, handshakes := s.handshakes + 1 } := by
      simp [connect, hnone]
    rw [h1]
    exact ⟨by simp [connect], by simp [connect]⟩

/-- C4 amended witness: a successful connect followed by a second call (here
with a failing outcome available, which is never used): one handshake, state
unchanged by the second call. -/
theorem connect_idempotent_witness :
    connect .connectRaises (connect (.success "8.0.2") initSession) =
      connect (.success "8.0.2") initSession ∧
    (connect .connectRaises (connect (.success "8.0.2") initSession)).handshakes = 1 := by
  exact (connect_idempotent initSession .connectRaises).2 "8.0.2" rfl

/-- C5 counterexample: not every failing handshake leaves the handle unset —
when `SmartConnect` succeeds and the subsequent version retrieval raises, the
handle has already been assigned and remains set. -/
theorem connect_failure_counterexample :
    (connect .versionFetchRaises initSession).conn = some () ∧
    (connect .versionFetchRaises initSession).conn ≠ none := by
  decide

/-- C5 amended: `connect()` never raises (it is a total state transformer);
when `SmartConnect` itself raises the handle remains unset and the cached
version unchanged, but when `SmartConnect` succeeds and the later version
retrieval raises, the handle is left assigned (the cached version still
unchanged). -/
theorem connect_failure_state (s : Session) (h : s.conn = none) :
    (connect .connectRaises s).conn = none ∧
    (connect .connectRaises s).version = s.version ∧
    (connect .versionFetchRaises s).conn = some () ∧
    (connect .versionFetchRaises s).version = s.version := by
  refine ⟨?_, ?_, ?_, ?_⟩ <;> simp [connect, h]

/-- C5 amended witness: both failure modes from the fresh state. -/
theorem connect_failure_state_witness :
    (connect .connectRaises initSession).conn = none ∧
    (connect .connectRaises initSession).version = none ∧
    (connect .versionFetchRaises initSession).conn = some () ∧
    (connect .versionFetchRaises initSession).version = none := by
  exact connect_failure_state initSession rfl

/-- C8 counterexample: the empty string is falsy in Python but
`get_cpu_mem_used` only short-circuits on `None` (`vra == None`); called with
`""` on a working connection it connects (one handshake) and scans, ending in
the `ValueError` raise — not an immediate `None` return. -/
theorem get_cpu_mem_used_counterexample :
    get_cpu_mem_used initSession (.success "8.0.2") wDemo (some "") =
      (.valueErrorRaised, ⟨some (), some "8.0.2", 1⟩) ∧
    get_cpu_mem_used initSession (.success "8.0.2") wDemo (some "") ≠
      (.noneResult, initSession) := by
  decide

/-- C8 amended: `get_cpu_mem_used` returns `None` immediately — session
untouched, so no connection attempt and no inventory scan — exactly when
`vra` is `None`; any string argument (the empty string included) instead
proceeds: from a disconnected session with a succeeding handshake it performs
a handshake. -/
theorem get_cpu_mem_used_none_arg (s : Session) (hs : HandshakeOutcome) (w : World) :
    get_cpu_mem_used s hs w none = (.noneResult, s) ∧
    (∀ v ver, s.conn = none → hs = .success ver →
      (get_cpu_mem_used s hs w (some v)).2.handshakes = s.handshakes + 1) := by
  constructor
  · rfl
  · intro v ver hnone hsucc
    subst hsucc
    have h1 : connect (.success ver) s =
        { s with conn := some (), version := some ver, handshakes := s.handshakes + 1 } := by
      simp [connect, hnone]
    simp only [get_cpu_mem_used, hnone, if_pos rfl, h1]
    cases w.contentErr.isSome <;> cases hfind : findVM w.content.vms v <;> simp [hfind]

/-- C8 amended witness: `None` argument returns immediately with the session
untouched; `""` triggers a handshake. -/
theorem get_cpu_mem_used_none_arg_witness :
    get_cpu_mem_used initSession (.success "8.0.2") wDemo none = (.noneResult, initSession) ∧
    (get_cpu_mem_used initSession (.success "8.0.2") wDemo (some "")).2.handshakes = 1 := by
  have h := get_cpu_mem_used_none_arg initSession (.success "8.0.2") wDemo
  exact ⟨h.1, h.2 "" "8.0.2" rfl rfl⟩

/-- C9 counterexample: called with the empty string — a name present nowhere
in the inventory — `get_vm_power_state` does not return `{"": "Not Found"}`:
the empty string is falsy, so the code takes the no-argument branch and
returns the full mapping. -/
theorem get_vm_power_state_counterexample :
    get_vm_power_state wDemo (some "") =
      [("vm-a", PyVal.pstr "poweredOn"), ("vm-b", PyVal.pstr "poweredOff")] ∧
    get_vm_power_state wDemo (some "") ≠ [("", PyVal.pstr "Not Found")] := by
  decide

/-- C9 amended: `get_vm_power_state` builds the full name → power-state
mapping over the inventory; with a non-empty name present in the mapping it
returns the singleton `{vm: state}`, with a non-empty name not present it
returns `{vm: "Not Found"}`, with no argument — or the falsy empty string —
it returns the full mapping exactly, and on any failure it returns the empty
mapping. -/
theorem get_vm_power_state_spec (w : World) :
    (w.contentErr = none →
      (∀ v kv, v ≠ "" →
        (powerMapping w.content.vms).find? (fun p => p.1 = v) = some kv →
        get_vm_power_state w (some v) = [(v, kv.2)]) ∧
      (∀ v, v ≠ "" →
        (powerMapping w.content.vms).find? (fun p => p.1 = v) = none →
        get_vm_power_state w (some v) = [(v, PyVal.pstr "Not Found")]) ∧
      get_vm_power_state w none = powerMapping w.content.vms ∧
      get_vm_power_state w (some "") = powerMapping w.content.vms) ∧
    (∀ m vm, w.contentErr = some m → get_vm_power_state w vm = []) := by
  obtain ⟨c, ce⟩ := w
  constructor
  · intro hnone
    simp only at hnone
    subst hnone
    refine ⟨fun v kv hv hfind => ?_, fun v hv hfind => ?_, rfl, rfl⟩
    · simp [get_vm_power_state, hv, hfind]
    · simp [get_vm_power_state, hv, hfind]
  · intro m vm hm
    simp only at hm
    subst hm
    rfl

/-- C9 amended witness: singleton for a present name, `Not Found` for an
absent one, the full mapping with no argument, empty mapping on failure. -/
theorem get_vm_power_state_spec_witness :
    get_vm_power_state wDemo (some "vm-b") = [("vm-b", PyVal.pstr "poweredOff")] ∧
    get_vm_power_state wDemo (some "ghost") = [("ghost", PyVal.pstr "Not Found")] ∧
    get_vm_power_state wDemo none =
      [("vm-a", PyVal.pstr "poweredOn"), ("vm-b", PyVal.pstr "poweredOff")] ∧
    get_vm_power_state ⟨⟨[vmA], []⟩, some "boom"⟩ none = [] := by
  have h := (get_vm_power_state_spec wDemo).1 rfl
  refine ⟨?_, ?_, ?_, ?_⟩
  · exact h.1 "vm-b" ("vm-b", PyVal.pstr "poweredOff") (by decide) (by decide)
  · exact h.2.1 "ghost" (by decide) (by decide)
  · have := h.2.2.1
    simpa using this
  · exact (get_vm_power_state_spec ⟨⟨[vmA], []⟩, some "boom"⟩).2 "boom" none rfl

/-- `pyInsert` makes the inserted key present with the inserted value. -/
theorem find?_pyInsert {α : Type} (d : List (String × α)) (k : String) (v : α) :
    (pyInsert d k v).find? (fun kv => kv.1 = k) = some (k, v) := by
  induction d with
  | nil => simp [pyInsert]
  | cons kv rest ih =>
      by_cases hk : kv.1 = k
      · simp [pyInsert, hk]
      · simp [pyInsert, hk, ih]

/-- The `version` instance attribute exists and is not callable. -/
def versionShadowed (o : VcsiteObj) : Prop :=
  ∃ u, getattrInst o "version" = some u ∧ isCallable u = false

/-- Any assignment the class makes to `self.version` keeps the instance
attribute present and non-callable. -/
theorem versionShadowed_update (o : VcsiteObj) (u : Option String) :
    versionShadowed (applyVersionUpdate o u) := by
  refine ⟨match u with | none => PyAttrVal.vNone | some s => PyAttrVal.vStr s, ?_, ?_⟩
  · simp [getattrInst, applyVersionUpdate, find?_pyInsert]
  · cases u <;> rfl

/-- `versionShadowed` is preserved along any sequence of the class's
assignments to `self.version`. -/
theorem versionShadowed_foldl (updates : List (Option String)) :
    ∀ o : VcsiteObj, versionShadowed o →
      versionShadowed (updates.foldl applyVersionUpdate o) := by
  induction updates with
  | nil => intro o h; exact h
  | cons u rest ih =>
      intro o _
      exact ih (applyVersionUpdate o u) (versionShadowed_update o u)

/-- C10: on every `vcsite` instance — as constructed by `__init__` and after
any sequence of the assignments `connect`/`disconnect` make to
`self.version` — the instance attribute `version` (always `None` or a
version string) shadows the class's `version` method, so `site.version()`
raises `TypeError` and the method body is unreachable through an instance. -/
theorem version_attribute_shadows_method (host : String) (port : Int)
    (username password : String) (verify_ssl : Bool) (loglevel : String)
    (updates : List (Option String)) :
    callAttr (updates.foldl applyVersionUpdate
      (vcsiteInit host port username password verify_ssl loglevel)) "version" =
      some CallOutcome.typeError := by
  have hinit : versionShadowed (vcsiteInit host port username password verify_ssl loglevel) :=
    ⟨PyAttrVal.vNone, rfl, rfl⟩
  obtain ⟨u, hu, hcall⟩ := versionShadowed_foldl updates _ hinit
  simp [callAttr, getattr, hu, hcall]

end PyVmw
